import Mathlib

/-!
Verification of the constitutive-composition core of `fenicsx_pulse`
(`cardiac_model.py` and `compressibility.py`).

The code builds symbolic tensor/scalar expressions (UFL). We embed those
expressions as a syntax tree `Expr`, the two concrete compressibility
models as records over an explicit state (the Python objects' mutable
attributes), and `CardiacModel.strain_energy` as a function returning the
post-call compressibility state together with the resulting expression
(`Except` models the `MissingModelAttribute` exception). A parametric
evaluation `Expr.eval` gives the numeric reading used by the
spec's concrete test values.
-/

namespace FenicsxPulse

/-- Symbolic scalar/tensor expressions, as built by the expression library
(`ufl`): variables, rational literals, arithmetic, `ufl.ln`, and the
Jacobian node produced by the kinematics collaborator. -/
inductive Expr : Type
  | var : String → Expr
  | const : ℚ → Expr
  | add : Expr → Expr → Expr
  | sub : Expr → Expr → Expr
  | mul : Expr → Expr → Expr
  | pow : Expr → Expr → Expr
  | ln : Expr → Expr
  | jacobian : Expr → Expr
  deriving DecidableEq

/-- Modelled from the spec: `exceptions.MissingModelAttribute` (the
`exceptions` module is not among the staged files) "carries the attribute
name and the offending model's type name for diagnostics". -/
inductive PulseError : Type
  | missingModelAttribute : (attr : String) → (model : String) → PulseError
  deriving DecidableEq

/-- Scalar multiplication `s * X` as the code's `Jm13 * Fe` / `Jm13 * F`:
when the scalar is the literal one (the Python float `1.0` of the
incompressible branch), the expression library's product simplification
returns the operand itself — the spec's "the passive material law consumes
Fe unsplit". Otherwise an explicit product node is built. -/
def scale (s X : Expr) : Expr :=
  if s = Expr.const 1 then X else Expr.mul s X

namespace kinematics

/-- Modelled from the spec: `kinematics.Jacobian` (the `kinematics` module
is not among the staged files) returns "the Jacobian (determinant)" of its
tensor argument, kept symbolic as a `jacobian` node. -/
def Jacobian (F : Expr) : Expr := Expr.jacobian F

end kinematics

/-- The `ActiveModel` protocol of `cardiac_model.py`. -/
structure ActiveModel : Type where
  strain_energy : Expr → Expr
  Fe : Expr → Expr

/-- The `HyperElasticMaterial` protocol of `cardiac_model.py`. -/
structure HyperElasticMaterial : Type where
  strain_energy : Expr → Expr

/-- The `Compressibility` contract (`cardiac_model.py` protocol /
`compressibility.py` abstract base class), over an explicit state `σ`
standing for the Python object's mutable attributes. `register` returns
the updated state; `strain_energy` may fail (`Incompressible` raises
`MissingModelAttribute` when no multiplier is stored). -/
structure Compressibility (σ : Type) : Type where
  strain_energy : σ → Expr → Except PulseError Expr
  is_compressible : σ → Bool
  register : σ → Option Expr → σ

/-- `Incompressible` of `compressibility.py`: state is the stored
multiplier `p` (a `dolfinx` function or `None`; `p` starts unset).
`register(p)` stores its argument; `strain_energy(J)` raises
`MissingModelAttribute(attr="p", model="Incompressible")` when `p is None`
and returns `p * (J - 1.0)` otherwise; `is_compressible()` is `False`. -/
def Incompressible : Compressibility (Option Expr) where
  strain_energy := fun p J =>
    match p with
    | none => .error (.missingModelAttribute "p" "Incompressible")
    | some pf => .ok (Expr.mul pf (Expr.sub J (Expr.const 1)))
  is_compressible := fun _ => false
  register := fun _ p => p

/-- `Compressible` of `compressibility.py`: state is the coefficient
`kappa` fixed at construction (default `1e3`). `register` is the base
class's no-op `pass`; `strain_energy(J)` returns
`kappa * (J * ufl.ln(J) - J + 1)`; `is_compressible()` is `True`. -/
def Compressible : Compressibility Expr where
  strain_energy := fun kappa J =>
    .ok (Expr.mul kappa (Expr.add (Expr.sub (Expr.mul J (Expr.ln J)) J) (Expr.const 1)))
  is_compressible := fun _ => true
  register := fun kappa _ => kappa

/-- `CardiacModel` of `cardiac_model.py`: a frozen triple of the three
capabilities (the compressibility one carrying mutable state `σ`). -/
structure CardiacModel (σ : Type) : Type where
  material : HyperElasticMaterial
  active : ActiveModel
  compressibility : Compressibility σ

/-- `CardiacModel.strain_energy(F, p=None)`: registers `p`, computes
`Fe = active.Fe(F)` and `J = kinematics.Jacobian(Fe)`, picks
`Jm13 = J ** (-1/3)` when the model is compressible and the scalar `1.0`
otherwise, and returns
`material.strain_energy(Jm13 * Fe) + active.strain_energy(Jm13 * F)
 + compressibility.strain_energy(J)`.
The returned pair is (post-call compressibility state, result); a raise
from the compressibility model propagates as `Except.error`. -/
def CardiacModel.strain_energy {σ : Type} (m : CardiacModel σ) (s : σ)
    (F : Expr) (p : Option Expr := none) : σ × Except PulseError Expr :=
  let s' := m.compressibility.register s p
  let Fe := m.active.Fe F
  let J := kinematics.Jacobian Fe
  let Jm13 := if m.compressibility.is_compressible s' then Expr.pow J (Expr.const (-1/3))
              else Expr.const 1
  (s',
    (m.compressibility.strain_energy s' J).map fun w =>
      Expr.add
        (Expr.add (m.material.strain_energy (scale Jm13 Fe))
          (m.active.strain_energy (scale Jm13 F)))
        w)

/-- Numeric reading of an expression: `lg` interprets `ln`, `pw`
interprets `pow`, `jc` interprets the Jacobian node, `env` the free
variables. -/
def Expr.eval (lg : ℝ → ℝ) (pw : ℝ → ℝ → ℝ) (jc : ℝ → ℝ) (env : String → ℝ) :
    Expr → ℝ
  | .var n => env n
  | .const c => (c : ℝ)
  | .add a b => a.eval lg pw jc env + b.eval lg pw jc env
  | .sub a b => a.eval lg pw jc env - b.eval lg pw jc env
  | .mul a b => a.eval lg pw jc env * b.eval lg pw jc env
  | .pow a b => pw (a.eval lg pw jc env) (b.eval lg pw jc env)
  | .ln a => lg (a.eval lg pw jc env)
  | .jacobian a => jc (a.eval lg pw jc env)

/-- The spec's stub compressibility capability "counting calls and
recording the last value": wraps a compressibility model, adding to its
state a call counter and the last registered value. -/
def countReg {σ : Type} (c : Compressibility σ) : Compressibility (σ × ℕ × Option Expr) where
  strain_energy := fun s J => c.strain_energy s.1 J
  is_compressible := fun s => c.is_compressible s.1
  register := fun s p => (c.register s.1 p, s.2.1 + 1, p)

/-! ## Helper lemmas for the numeric reading of the compressible penalty -/

/-- Taylor bound on `log (99/100)` from `Real.abs_log_sub_add_sum_range_le`. -/
lemma log_99_bounds :
    |Real.log (99/100) + (1/100 + 1/20000 + 1/3000000 : ℝ)| ≤ 1/99000000 := by
  have habs : |(1/100 : ℝ)| = 1/100 := by rw [abs_of_pos]; norm_num
  have h := Real.abs_log_sub_add_sum_range_le (x := (1/100 : ℝ)) (by rw [habs]; norm_num) 3
  rw [Finset.sum_range_succ, Finset.sum_range_succ, Finset.sum_range_succ,
    Finset.sum_range_zero, habs] at h
  norm_num at h
  calc |Real.log (99/100) + (1/100 + 1/20000 + 1/3000000 : ℝ)|
      = |1/100 + ((1/100:ℝ))^2/2 + ((1/100:ℝ))^3/3 + Real.log (1 - 1/100)| := by
        norm_num [abs_sub_comm]; ring_nf
    _ ≤ 1/99000000 := by norm_num at h ⊢; linarith [h]

/-- Taylor bound on `log (101/100)` from `Real.abs_log_sub_add_sum_range_le`. -/
lemma log_101_bounds :
    |Real.log (101/100) - (1/100 - 1/20000 + 1/3000000 : ℝ)| ≤ 1/99000000 := by
  have habs : |(-(1/100) : ℝ)| = 1/100 := by rw [abs_neg, abs_of_pos]; norm_num
  have h := Real.abs_log_sub_add_sum_range_le (x := (-(1/100) : ℝ)) (by rw [habs]; norm_num) 3
  rw [Finset.sum_range_succ, Finset.sum_range_succ, Finset.sum_range_succ,
    Finset.sum_range_zero, habs] at h
  norm_num at h
  calc |Real.log (101/100) - (1/100 - 1/20000 + 1/3000000 : ℝ)|
      = |-(1/100) + ((1/100:ℝ))^2/2 + (-(1/100:ℝ))^3/3 + Real.log (1 + 1/100)| := by
        norm_num; ring_nf
    _ ≤ 1/99000000 := by norm_num at h ⊢; linarith [h]

/-- The numeric reading of the compressible penalty expression at a
rational Jacobian value. -/
lemma eval_compressible_penalty (lg : ℝ → ℝ) (pw : ℝ → ℝ → ℝ) (jc : ℝ → ℝ)
    (env : String → ℝ) (k q : ℚ) :
    Expr.eval lg pw jc env
        (Expr.mul (Expr.const k)
          (Expr.add (Expr.sub (Expr.mul (Expr.const q) (Expr.ln (Expr.const q)))
            (Expr.const q)) (Expr.const 1))) =
      (k : ℝ) * ((q : ℝ) * lg (q : ℝ) - (q : ℝ) + 1) := by
  simp [Expr.eval]

/-- The penalty value at `J = 1.01`, `κ = 1000` is strictly positive, and
differs from the value at `J = 0.99`. -/
lemma compressible_penalty_vals :
    (0:ℝ) < 1000 * ((101/100) * Real.log (101/100) - 101/100 + 1) ∧
    1000 * ((99/100) * Real.log (99/100) - 99/100 + 1) ≠
      1000 * ((101/100) * Real.log (101/100) - 101/100 + 1) := by
  have h1 := abs_le.mp log_99_bounds
  have h2 := abs_le.mp log_101_bounds
  constructor
  · nlinarith [h2.1, h2.2]
  · intro heq
    nlinarith [h1.1, h1.2, h2.1, h2.2]


/-! ## Claim theorems -/

/-- C3: `Incompressible.strain_energy(J)` raises `MissingModelAttribute`
carrying attribute name "p" and the model's type name exactly when no
multiplier has been registered (the stored `p` is unset); with a
registered multiplier `p` it returns `p · (J − 1)` and does not raise. -/
theorem incompressible_strain_energy_spec :
    (∀ J : Expr, Incompressible.strain_energy none J =
      Except.error (PulseError.missingModelAttribute "p" "Incompressible")) ∧
    (∀ (p J : Expr), Incompressible.strain_energy (some p) J =
      Except.ok (Expr.mul p (Expr.sub J (Expr.const 1)))) ∧
    (∀ (s : Option Expr) (J : Expr),
      (∃ e, Incompressible.strain_energy s J = Except.error e) ↔ s = none) := by
  refine ⟨fun J => rfl, fun p J => rfl, fun s J => ?_⟩
  cases s with
  | none => simp [Incompressible]
  | some p => simp [Incompressible]

/-- C7: `register` is idempotent and callable any number of times, the
stored multiplier after any sequence of calls is the last argument
(including clearing with none); `Compressible` inherits the no-op
`register` and its state (the coefficient) never changes. -/
theorem compressibility_register_spec :
    (∀ (s p : Option Expr), Incompressible.register s p = p) ∧
    (∀ (s p : Option Expr),
      Incompressible.register (Incompressible.register s p) p = Incompressible.register s p) ∧
    (∀ (s p q : Option Expr),
      Incompressible.register (Incompressible.register s p) q = Incompressible.register s q) ∧
    (∀ (kappa : Expr) (p : Option Expr), Compressible.register kappa p = kappa) ∧
    (∀ (kappa : Expr) (p : Option Expr),
      Compressible.register (Compressible.register kappa p) p = Compressible.register kappa p) :=
  ⟨fun _ _ => rfl, fun _ _ => rfl, fun _ _ _ => rfl, fun _ _ => rfl, fun _ _ => rfl⟩

/-- C8: `is_compressible()` is a pure query, constant for the model's
lifetime (unchanged by any `register` call): false for every
`Incompressible` state, true for every `Compressible` state. -/
theorem compressibility_is_compressible_spec :
    (∀ s : Option Expr, Incompressible.is_compressible s = false) ∧
    (∀ kappa : Expr, Compressible.is_compressible kappa = true) ∧
    (∀ (s p : Option Expr),
      Incompressible.is_compressible (Incompressible.register s p) =
        Incompressible.is_compressible s) ∧
    (∀ (kappa : Expr) (p : Option Expr),
      Compressible.is_compressible (Compressible.register kappa p) =
        Compressible.is_compressible kappa) :=
  ⟨fun _ => rfl, fun _ => rfl, fun _ _ => rfl, fun _ _ => rfl⟩

/-- C9: on a `CardiacModel` with an `Incompressible` compressibility
sub-model, `strain_energy(F)` with `p` omitted (the default none) raises
`MissingModelAttribute`, whatever multiplier had been registered on the
`Incompressible` instance beforehand: the unconditional `register(p)`
overwrites the stored multiplier with none first. -/
theorem incompressible_missing_p_raises :
    ∀ (mat : HyperElasticMaterial) (act : ActiveModel) (s : Option Expr) (F : Expr),
      (CardiacModel.strain_energy ⟨mat, act, Incompressible⟩ s F).2 =
        Except.error (PulseError.missingModelAttribute "p" "Incompressible") ∧
      (CardiacModel.strain_energy ⟨mat, act, Incompressible⟩ s F none).2 =
        Except.error (PulseError.missingModelAttribute "p" "Incompressible") :=
  fun _ _ _ _ => ⟨rfl, rfl⟩

/-- C10: on a `CardiacModel` with a `Compressible` compressibility
sub-model, `strain_energy` is independent of the multiplier argument
(`Compressible` inherits the no-op `register`): any two calls with the
same `F` and different `p` (none included) return the same expression and
leave the compressibility state unchanged. -/
theorem compressible_result_independent_of_p :
    ∀ (mat : HyperElasticMaterial) (act : ActiveModel) (kappa F : Expr) (p q : Option Expr),
      CardiacModel.strain_energy ⟨mat, act, Compressible⟩ kappa F p =
        CardiacModel.strain_energy ⟨mat, act, Compressible⟩ kappa F q ∧
      (CardiacModel.strain_energy ⟨mat, act, Compressible⟩ kappa F p).1 = kappa :=
  fun _ _ _ _ _ _ => ⟨rfl, rfl⟩

/-- Scaling by the literal scalar one is the identity. -/
lemma scale_one (X : Expr) : scale (Expr.const 1) X = X := if_pos rfl

/-- Scaling by a power expression builds an explicit product node. -/
lemma scale_pow (a b X : Expr) :
    scale (Expr.pow a b) X = Expr.mul (Expr.pow a b) X :=
  if_neg (fun h => Expr.noConfusion h)

/-- C1: for every `CardiacModel`, deformation gradient `F` and optional
multiplier `p`, `strain_energy(F, p)` returns
`material.strain_energy(Jm13·Fe) + active.strain_energy(Jm13·F) +
compressibility.strain_energy(J)` where `Fe = active.Fe(F)`, `J` is the
Jacobian of `Fe` (not of `F`), and `Jm13 = J^(−1/3)` when
`is_compressible()` holds and the scalar one otherwise (a raise from the
compressibility term propagating unmodified). -/
theorem cardiacModel_strain_energy_formula {σ : Type} (m : CardiacModel σ) (s : σ)
    (F : Expr) (p : Option Expr) :
    (m.strain_energy s F p).2 =
      (m.compressibility.strain_energy (m.compressibility.register s p)
          (kinematics.Jacobian (m.active.Fe F))).map
        (fun w =>
          Expr.add
            (Expr.add
              (m.material.strain_energy
                (scale
                  (if m.compressibility.is_compressible (m.compressibility.register s p) then
                    Expr.pow (kinematics.Jacobian (m.active.Fe F)) (Expr.const (-1/3))
                  else Expr.const 1)
                  (m.active.Fe F)))
              (m.active.strain_energy
                (scale
                  (if m.compressibility.is_compressible (m.compressibility.register s p) then
                    Expr.pow (kinematics.Jacobian (m.active.Fe F)) (Expr.const (-1/3))
                  else Expr.const 1)
                  F)))
            w) := rfl

/-- C2: the active capability's strain energy is applied to `Jm13·F`, the
scaled total deformation gradient, never to the elastic part `Fe`, while
the material capability's is applied to `Jm13·Fe`: the general formula
pins both arguments for every model, and on a concrete model whose
`Fe(F) ≠ F` the returned expression differs from the one that would feed
`Jm13·Fe` to the active law. -/
theorem cardiacModel_active_term_total_F :
    (∀ (σ : Type) (m : CardiacModel σ) (s : σ) (F : Expr) (p : Option Expr),
      (m.strain_energy s F p).2 =
        (m.compressibility.strain_energy (m.compressibility.register s p)
            (kinematics.Jacobian (m.active.Fe F))).map
          (fun w =>
            Expr.add
              (Expr.add
                (m.material.strain_energy
                  (scale
                    (if m.compressibility.is_compressible (m.compressibility.register s p) then
                      Expr.pow (kinematics.Jacobian (m.active.Fe F)) (Expr.const (-1/3))
                    else Expr.const 1)
                    (m.active.Fe F)))
                (m.active.strain_energy
                  (scale
                    (if m.compressibility.is_compressible (m.compressibility.register s p) then
                      Expr.pow (kinematics.Jacobian (m.active.Fe F)) (Expr.const (-1/3))
                    else Expr.const 1)
                    F)))
              w)) ∧
    (let A := Expr.var "A"
     let F := Expr.var "F"
     let Fe := Expr.mul A F
     let J := Expr.jacobian Fe
     let Jm13 := Expr.pow J (Expr.const (-1/3))
     let pen := Expr.mul (Expr.var "k")
       (Expr.add (Expr.sub (Expr.mul J (Expr.ln J)) J) (Expr.const 1))
     (CardiacModel.strain_energy
        ⟨⟨fun X => X⟩, ⟨fun X => X, fun X => Expr.mul A X⟩, Compressible⟩
        (Expr.var "k") F none).2 =
       Except.ok (Expr.add (Expr.add (Expr.mul Jm13 Fe) (Expr.mul Jm13 F)) pen) ∧
     Expr.add (Expr.add (Expr.mul Jm13 Fe) (Expr.mul Jm13 F)) pen ≠
       Expr.add (Expr.add (Expr.mul Jm13 Fe) (Expr.mul Jm13 Fe)) pen) :=
  ⟨fun _ _ _ _ _ => rfl, rfl, by simp⟩

/-- C4: split policy on the material argument: with an `Incompressible`
sub-model the material capability receives the raw, unscaled `Fe` itself,
and with a `Compressible` sub-model it receives `J^(-1/3)·Fe`. -/
theorem cardiacModel_material_split_policy :
    (∀ (mat : HyperElasticMaterial) (act : ActiveModel) (s : Option Expr) (F q : Expr),
      (CardiacModel.strain_energy ⟨mat, act, Incompressible⟩ s F (some q)).2 =
        Except.ok (Expr.add
          (Expr.add (mat.strain_energy (act.Fe F)) (act.strain_energy F))
          (Expr.mul q (Expr.sub (kinematics.Jacobian (act.Fe F)) (Expr.const 1))))) ∧
    (∀ (mat : HyperElasticMaterial) (act : ActiveModel) (kappa F : Expr) (p : Option Expr),
      (CardiacModel.strain_energy ⟨mat, act, Compressible⟩ kappa F p).2 =
        Except.ok (Expr.add
          (Expr.add
            (mat.strain_energy
              (Expr.mul
                (Expr.pow (kinematics.Jacobian (act.Fe F)) (Expr.const (-1/3)))
                (act.Fe F)))
            (act.strain_energy
              (Expr.mul
                (Expr.pow (kinematics.Jacobian (act.Fe F)) (Expr.const (-1/3)))
                F)))
          (Expr.mul kappa
            (Expr.add
              (Expr.sub
                (Expr.mul (kinematics.Jacobian (act.Fe F))
                  (Expr.ln (kinematics.Jacobian (act.Fe F))))
                (kinematics.Jacobian (act.Fe F)))
              (Expr.const 1))))) :=
  ⟨fun _ _ _ _ _ => rfl, fun _ _ _ _ _ => rfl⟩

/-- C5: every `strain_energy(F, p)` call performs exactly one
`compressibility.register(p)` with the argument `p` as passed (none
included) before any energy term is computed: the post-call state is one
`register` application (also visible on the spec's counting stub, whose
counter grows by exactly one and whose recorded last value is `p`), and
every compressibility query inside the result is made against that
registered state. -/
theorem cardiacModel_register_once :
    (∀ (σ : Type) (m : CardiacModel σ) (s : σ) (F : Expr) (p : Option Expr),
      (m.strain_energy s F p).1 = m.compressibility.register s p) ∧
    (∀ (σ : Type) (c : Compressibility σ) (mat : HyperElasticMaterial) (act : ActiveModel)
      (s : σ) (n : ℕ) (last : Option Expr) (F : Expr) (p : Option Expr),
      (CardiacModel.strain_energy ⟨mat, act, countReg c⟩ (s, n, last) F p).1 =
        (c.register s p, n + 1, p)) ∧
    (∀ (σ : Type) (m : CardiacModel σ) (s : σ) (F : Expr) (p : Option Expr),
      (m.strain_energy s F p).2 =
        (m.compressibility.strain_energy ((m.strain_energy s F p).1)
            (kinematics.Jacobian (m.active.Fe F))).map
          (fun w =>
            Expr.add
              (Expr.add
                (m.material.strain_energy
                  (scale
                    (if m.compressibility.is_compressible ((m.strain_energy s F p).1) then
                      Expr.pow (kinematics.Jacobian (m.active.Fe F)) (Expr.const (-1/3))
                    else Expr.const 1)
                    (m.active.Fe F)))
                (m.active.strain_energy
                  (scale
                    (if m.compressibility.is_compressible ((m.strain_energy s F p).1) then
                      Expr.pow (kinematics.Jacobian (m.active.Fe F)) (Expr.const (-1/3))
                    else Expr.const 1)
                    F)))
              w)) :=
  ⟨fun _ _ _ _ _ => rfl, fun _ _ _ _ _ _ _ _ _ => rfl, fun _ _ _ _ _ => rfl⟩

/-- C6: `Compressible.strain_energy(J)` returns `κ·(J·ln(J) − J + 1)` for
every `J` and coefficient `κ`; numerically, with `κ = 1000`, its value at
`J = 1` is exactly 0, its value at `J = 1.01` is strictly positive, and
its values at `J = 0.99` and `J = 1.01` differ. -/
theorem compressible_strain_energy_spec :
    (∀ (kappa J : Expr), Compressible.strain_energy kappa J =
      Except.ok (Expr.mul kappa
        (Expr.add (Expr.sub (Expr.mul J (Expr.ln J)) J) (Expr.const 1)))) ∧
    (∀ (pw : ℝ → ℝ → ℝ) (jc : ℝ → ℝ) (env : String → ℝ),
      (Compressible.strain_energy (Expr.const 1000) (Expr.const 1)).map
        (Expr.eval Real.log pw jc env) = Except.ok 0) ∧
    (∀ (pw : ℝ → ℝ → ℝ) (jc : ℝ → ℝ) (env : String → ℝ), ∃ v : ℝ,
      (Compressible.strain_energy (Expr.const 1000) (Expr.const (101/100))).map
        (Expr.eval Real.log pw jc env) = Except.ok v ∧ 0 < v) ∧
    (∀ (pw : ℝ → ℝ → ℝ) (jc : ℝ → ℝ) (env : String → ℝ),
      (Compressible.strain_energy (Expr.const 1000) (Expr.const (99/100))).map
        (Expr.eval Real.log pw jc env) ≠
      (Compressible.strain_energy (Expr.const 1000) (Expr.const (101/100))).map
        (Expr.eval Real.log pw jc env)) := by
  refine ⟨fun kappa J => rfl, fun pw jc env => ?_, fun pw jc env => ?_, fun pw jc env => ?_⟩
  · show Except.ok _ = Except.ok (0:ℝ)
    rw [eval_compressible_penalty]
    norm_num [Real.log_one]
  · refine ⟨_, rfl, ?_⟩
    rw [eval_compressible_penalty]
    have h := compressible_penalty_vals.1
    push_cast
    linarith [h]
  · intro heq
    have h2 := compressible_penalty_vals.2
    rw [show ((Compressible.strain_energy (Expr.const 1000) (Expr.const (99/100))).map
        (Expr.eval Real.log pw jc env)) = Except.ok (Expr.eval Real.log pw jc env
          (Expr.mul (Expr.const 1000)
            (Expr.add (Expr.sub (Expr.mul (Expr.const (99/100)) (Expr.ln (Expr.const (99/100))))
              (Expr.const (99/100))) (Expr.const 1)))) from rfl,
      show ((Compressible.strain_energy (Expr.const 1000) (Expr.const (101/100))).map
        (Expr.eval Real.log pw jc env)) = Except.ok (Expr.eval Real.log pw jc env
          (Expr.mul (Expr.const 1000)
            (Expr.add (Expr.sub (Expr.mul (Expr.const (101/100)) (Expr.ln (Expr.const (101/100))))
              (Expr.const (101/100))) (Expr.const 1)))) from rfl] at heq
    rw [eval_compressible_penalty, eval_compressible_penalty] at heq
    apply h2
    have := Except.ok.inj heq
    push_cast at this
    linarith [this.le, this.ge]

end FenicsxPulse
